import Mathlib

/-!
Verification of the `recordserviced` daemon bootstrap orchestrator
(`be/src/service/recordserviced-main.cc`).

The whole program is a single straight-line `main()` function.  We embed it
as a pure function from the process configuration (the three gflags the
program reads) and an oracle (the success/failure outcome of each fallible
collaborator call) to the trace of source-level steps performed, paired with
the process exit status.  Each `Event` corresponds to one call site of
`main()`, in source order.
-/

set_option maxHeartbeats 1000000

namespace RecordServiced

/-- The configuration flags read by `recordserviced-main.cc`:
`FLAGS_recordservice_planner_port`, `FLAGS_recordservice_worker_port`
(declared lines 49-50) and `FLAGS_hostname`.  A port value of `0` means the
corresponding role is disabled. -/
structure Config where
  recordservice_planner_port : Nat
  recordservice_worker_port : Nat
  hostname : String
  deriving DecidableEq

/-- Lines 70-71: the port used for the service id is the planner port if it
is configured (nonzero), else the worker port. -/
def primaryPort (cfg : Config) : Nat :=
  if cfg.recordservice_planner_port = 0 then cfg.recordservice_worker_port
  else cfg.recordservice_planner_port

/-- Lines 68-73: `Substitute("recordserviced@$0", TNetworkAddressToString(addr))`.
Modelled from the spec: `MakeNetworkAddress` / `TNetworkAddressToString`
(util/network-util, not under src/) render the address as `"<host>:<port>"`
with the port printed in decimal. -/
def serviceId (cfg : Config) : String :=
  "recordserviced@" ++ cfg.hostname ++ ":" ++ Nat.repr (primaryPort cfg)

/-- The three readiness gauges published by `main()`:
`RecordServiceMetrics::RUNNING_PLANNER` (line 100),
`RecordServiceMetrics::RUNNING_WORKER` (line 104) and
`ImpaladMetrics::IMPALA_SERVER_READY` (line 107). -/
inductive Flag where
  | planner
  | worker
  | serverReady
  deriving DecidableEq

/-- One event per call site of `main()`, in source order.  An event means
the corresponding call was made (for fallible calls, the oracle decides
whether it succeeded; on failure the run stops right after the event).
`setFlag f b` is a `set_value(b)` call on the readiness gauge `f`. -/
inductive Event where
  | initCommonRuntime
  | initLlvm
  | initLibhdfs
  | initHBaseScanner
  | initHBaseFactory
  | initHBaseWriter
  | initFeSupport
  | identityGenerated (id : String)
  | execEnvConstructed (id : String)
  | startThreadInstr
  | initRpcEventTracing
  | createImpalaServer
  | startRsServices
  | startExecEnvServices
  | startPlanner
  | startWorker
  | setFlag (f : Flag) (b : Bool)
  | joinPlanner
  | joinWorker
  | deletePlanner
  | deleteWorker
  deriving DecidableEq

/-- Outcome of every fallible collaborator call made by `main()`, one field
per call site, `true` meaning success.  Lines 61, 62 and 66
(`LlvmCodeGen::InitializeLlvm`, `JniUtil::InitLibhdfs`, `InitFeSupport`)
return no status to `main()`; modelled from the spec: each Subsystem
Bootstrapper step can independently fail and the first failing step aborts
startup with a non-zero exit. -/
structure Oracle where
  llvmOk : Bool
  libhdfsOk : Bool
  hbaseScannerOk : Bool
  hbaseFactoryOk : Bool
  hbaseWriterOk : Bool
  feSupportOk : Bool
  createServerOk : Bool
  rsServicesOk : Bool
  execEnvServicesOk : Bool
  plannerStartOk : Bool
  workerStartOk : Bool
  deriving DecidableEq

/-- Modelled from the spec: `ImpalaServer::StartRecordServiceServices`
(service/impala-server, not under src/) creates the planner `ThriftServer`
handle — leaving `recordservice_planner` non-NULL at line 98 — iff the
planner port is nonzero. -/
def plannerCreated (cfg : Config) : Bool :=
  decide (cfg.recordservice_planner_port ≠ 0)

/-- Modelled from the spec: `ImpalaServer::StartRecordServiceServices`
(not under src/) creates the worker `ThriftServer` handle — leaving
`recordservice_worker` non-NULL at line 102 — iff the worker port is
nonzero. -/
def workerCreated (cfg : Config) : Bool :=
  decide (cfg.recordservice_worker_port ≠ 0)

/-- Lines 107-116: publish the global ready flag, `Join()` the planner then
the worker handle (each only if non-NULL), then `delete` both handles and
return 0. -/
def finishRun (cfg : Config) (t : List Event) : List Event × Nat :=
  let t := t ++ [Event.setFlag Flag.serverReady true]
  let t := if plannerCreated cfg then t ++ [Event.joinPlanner] else t
  let t := if workerCreated cfg then t ++ [Event.joinWorker] else t
  (t ++ [Event.deletePlanner, Event.deleteWorker], 0)

/-- Lines 102-105: if the worker handle is non-NULL, `Start()` it
(`EXIT_IF_ERROR`: on failure exit with status 1) and on success set
`RUNNING_WORKER` to true; then fall through to lines 107-116. -/
def startWorkerPhase (cfg : Config) (o : Oracle) (t : List Event) :
    List Event × Nat :=
  if workerCreated cfg then
    let t := t ++ [Event.startWorker]
    if o.workerStartOk then
      finishRun cfg (t ++ [Event.setFlag Flag.worker true])
    else (t, 1)
  else finishRun cfg t

/-- Lines 98-101: if the planner handle is non-NULL, `Start()` it
(`EXIT_IF_ERROR`: on failure exit with status 1) and on success set
`RUNNING_PLANNER` to true; then fall through to the worker block. -/
def startPlannerPhase (cfg : Config) (o : Oracle) (t : List Event) :
    List Event × Nat :=
  if plannerCreated cfg then
    let t := t ++ [Event.startPlanner]
    if o.plannerStartOk then
      startWorkerPhase cfg o (t ++ [Event.setFlag Flag.planner true])
    else (t, 1)
  else startWorkerPhase cfg o t

/-- Lines 79-116 of `main()`: `CreateImpalaServer` (line 83,
`EXIT_IF_ERROR`), `StartRecordServiceServices` (line 86, `EXIT_IF_ERROR`),
`exec_env.StartServices()` (lines 90-96, exit 1 on failure), then the two
start blocks and the shutdown sequence. -/
def mainTail (cfg : Config) (o : Oracle) : List Event × Nat :=
  let t := [Event.createImpalaServer]
  if o.createServerOk = false then (t, 1) else
  let t := t ++ [Event.startRsServices]
  if o.rsServicesOk = false then (t, 1) else
  let t := t ++ [Event.startExecEnvServices]
  if o.execEnvServicesOk = false then (t, 1) else
  startPlannerPhase cfg o t

/-- Lines 52-116 of `main()`: `InitCommonRuntime` (line 53); the
no-role-enabled precondition check (lines 55-59, exit 1); the six Subsystem
Bootstrapper steps (lines 61-66), each aborting the run with a non-zero
status on failure; the service id (lines 68-73); the `ExecEnv` construction
with that id (line 74); thread instrumentation and RPC event tracing
(lines 76-77); then the tail (lines 79-116). -/
def mainRun (cfg : Config) (o : Oracle) : List Event × Nat :=
  let t := [Event.initCommonRuntime]
  if cfg.recordservice_worker_port = 0 ∧ cfg.recordservice_planner_port = 0 then
    (t, 1)
  else
  let t := t ++ [Event.initLlvm]
  if o.llvmOk = false then (t, 1) else
  let t := t ++ [Event.initLibhdfs]
  if o.libhdfsOk = false then (t, 1) else
  let t := t ++ [Event.initHBaseScanner]
  if o.hbaseScannerOk = false then (t, 1) else
  let t := t ++ [Event.initHBaseFactory]
  if o.hbaseFactoryOk = false then (t, 1) else
  let t := t ++ [Event.initHBaseWriter]
  if o.hbaseWriterOk = false then (t, 1) else
  let t := t ++ [Event.initFeSupport]
  if o.feSupportOk = false then (t, 1) else
  let t := t ++ [Event.identityGenerated (serviceId cfg),
                 Event.execEnvConstructed (serviceId cfg),
                 Event.startThreadInstr, Event.initRpcEventTracing]
  let r := mainTail cfg o
  (t ++ r.1, r.2)

/-- The events of a run that completes the Init phase, lines 53-77. -/
def initTrace (cfg : Config) : List Event :=
  [Event.initCommonRuntime, Event.initLlvm, Event.initLibhdfs,
   Event.initHBaseScanner, Event.initHBaseFactory, Event.initHBaseWriter,
   Event.initFeSupport, Event.identityGenerated (serviceId cfg),
   Event.execEnvConstructed (serviceId cfg), Event.startThreadInstr,
   Event.initRpcEventTracing]

/-- All six Subsystem Bootstrapper steps (lines 61-66) succeeded. -/
def allBootOk (o : Oracle) : Prop :=
  o.llvmOk = true ∧ o.libhdfsOk = true ∧ o.hbaseScannerOk = true ∧
  o.hbaseFactoryOk = true ∧ o.hbaseWriterOk = true ∧ o.feSupportOk = true

instance (o : Oracle) : Decidable (allBootOk o) := by
  unfold allBootOk; infer_instance

/-- Every fallible call that the run with configuration `cfg` performs
succeeded: the condition for `main()` to reach line 116 (`return 0`). -/
def successOracle (cfg : Config) (o : Oracle) : Prop :=
  allBootOk o ∧ o.createServerOk = true ∧ o.rsServicesOk = true ∧
  o.execEnvServicesOk = true ∧
  (plannerCreated cfg = true → o.plannerStartOk = true) ∧
  (workerCreated cfg = true → o.workerStartOk = true)

instance (cfg : Config) (o : Oracle) : Decidable (successOracle cfg o) := by
  unfold successOracle; infer_instance

/-- The bootstrap-step events that a run emits: the steps up to and
including the first failing one (all six when none fails). -/
def bootTrace (o : Oracle) : List Event :=
  if o.llvmOk = false then [Event.initLlvm] else
  if o.libhdfsOk = false then [Event.initLlvm, Event.initLibhdfs] else
  if o.hbaseScannerOk = false then
    [Event.initLlvm, Event.initLibhdfs, Event.initHBaseScanner] else
  if o.hbaseFactoryOk = false then
    [Event.initLlvm, Event.initLibhdfs, Event.initHBaseScanner,
     Event.initHBaseFactory] else
  if o.hbaseWriterOk = false then
    [Event.initLlvm, Event.initLibhdfs, Event.initHBaseScanner,
     Event.initHBaseFactory, Event.initHBaseWriter] else
  [Event.initLlvm, Event.initLibhdfs, Event.initHBaseScanner,
   Event.initHBaseFactory, Event.initHBaseWriter, Event.initFeSupport]

/-- An oracle in which every collaborator call succeeds. -/
def allOk : Oracle :=
  ⟨true, true, true, true, true, true, true, true, true, true, true⟩

/-- `Precedes a b t`: in trace `t`, at any point at which `b` has already
happened, `a` has happened too. -/
def Precedes (a b : Event) (t : List Event) : Prop :=
  ∀ k, b ∈ t.take k → a ∈ t.take k

theorem precedes_iff_ball (a b : Event) (t : List Event) :
    Precedes a b t ↔ ∀ k ≤ t.length, b ∈ t.take k → a ∈ t.take k := by
  constructor
  · intro h k _ hb
    exact h k hb
  · intro h k hb
    rcases le_or_lt k t.length with hk | hk
    · exact h k hk hb
    · have ht : t.take k = t := List.take_of_length_le (le_of_lt hk)
      have := h t.length le_rfl
      rw [List.take_length] at this
      rw [ht] at hb ⊢
      exact this hb

instance (a b : Event) (t : List Event) : Decidable (Precedes a b t) :=
  decidable_of_iff' _ (precedes_iff_ball a b t)

theorem precedes_of_not_mem {a b : Event} {t : List Event} (h : b ∉ t) :
    Precedes a b t := by
  intro k hb
  exact absurd (List.mem_of_mem_take hb) h

theorem precedes_of_split (a b : Event) (u v : List Event)
    (ha : a ∈ u) (hb : b ∉ u) : Precedes a b (u ++ v) := by
  intro k hbk
  rw [List.take_append_eq_append_take] at hbk ⊢
  rcases List.mem_append.mp hbk with h | h
  · exact absurd (List.mem_of_mem_take h) hb
  · have hk : u.length ≤ k := by
      by_contra hlt
      push_neg at hlt
      have : k - u.length = 0 := by omega
      rw [this] at h
      simp at h
    have : u.take k = u := List.take_of_length_le hk
    rw [this]
    exact List.mem_append.mpr (Or.inl ha)

theorem precedes_append_left {a b : Event} {u v : List Event}
    (hbu : b ∉ u) (h : Precedes a b v) : Precedes a b (u ++ v) := by
  intro k hbk
  rw [List.take_append_eq_append_take] at hbk ⊢
  rcases List.mem_append.mp hbk with hmem | hmem
  · exact absurd (List.mem_of_mem_take hmem) hbu
  · exact List.mem_append.mpr (Or.inr (h _ hmem))

/-! Injectivity of the decimal rendering `Nat.repr`, needed for the
port-sensitivity of the service id. -/

theorem toDigitsCore_eq_digits (fuel n : Nat) (ds : List Char)
    (hn : n ≠ 0) (hfuel : n ≤ fuel) :
    Nat.toDigitsCore 10 fuel n ds =
      ((Nat.digits 10 n).map Nat.digitChar).reverse ++ ds := by
  induction fuel generalizing n ds with
  | zero => omega
  | succ f ih =>
    simp only [Nat.toDigitsCore]
    have hdig : Nat.digits 10 n = n % 10 :: Nat.digits 10 (n / 10) :=
      Nat.digits_eq_cons_digits_div (by norm_num) hn
    by_cases h10 : n / 10 = 0
    · rw [h10] at hdig
      simp [h10, hdig]
    · have hlt : n / 10 < n := Nat.div_lt_self (Nat.pos_of_ne_zero hn) (by norm_num)
      rw [if_neg h10, ih (n / 10) _ h10 (by omega), hdig]
      simp

theorem repr_eq_digits (n : Nat) (hn : n ≠ 0) :
    Nat.repr n = (((Nat.digits 10 n).map Nat.digitChar).reverse).asString := by
  unfold Nat.repr Nat.toDigits
  rw [toDigitsCore_eq_digits (n + 1) n [] hn (by omega), List.append_nil]

theorem digitChar_inj_lt {d e : Nat} (hd : d < 10) (he : e < 10)
    (h : Nat.digitChar d = Nat.digitChar e) : d = e := by
  interval_cases d <;> interval_cases e <;> (revert h; decide)

theorem map_digitChar_inj :
    ∀ l1 l2 : List Nat, (∀ d ∈ l1, d < 10) → (∀ d ∈ l2, d < 10) →
      l1.map Nat.digitChar = l2.map Nat.digitChar → l1 = l2 := by
  intro l1
  induction l1 with
  | nil =>
    intro l2 _ _ h
    cases l2 <;> simp_all
  | cons a l ih =>
    intro l2 h1 h2 h
    cases l2 with
    | nil => simp_all
    | cons b m =>
      simp only [List.map_cons, List.cons.injEq] at h
      have hab : a = b := digitChar_inj_lt (h1 a (by simp)) (h2 b (by simp)) h.1
      have hlm : l = m :=
        ih m (fun d hd => h1 d (by simp [hd])) (fun d hd => h2 d (by simp [hd])) h.2
      rw [hab, hlm]

theorem repr_injective {m n : Nat} (h : Nat.repr m = Nat.repr n) : m = n := by
  have hbound : ∀ k : Nat, ∀ d ∈ Nat.digits 10 k, d < 10 := fun k d hd =>
    Nat.digits_lt_base (by norm_num) hd
  by_cases hm : m = 0 <;> by_cases hn : n = 0
  · omega
  · exfalso
    rw [hm, repr_eq_digits n hn] at h
    have hdata : ['0'] = ((Nat.digits 10 n).map Nat.digitChar).reverse :=
      congrArg String.data h
    have hmap : (Nat.digits 10 n).map Nat.digitChar = ['0'] := by
      have := congrArg List.reverse hdata
      simpa using this.symm
    have : Nat.digits 10 n = [0] := by
      have h0 : ([0] : List Nat).map Nat.digitChar = ['0'] := by decide
      exact map_digitChar_inj _ [0] (hbound n) (by decide) (hmap.trans h0.symm)
    have hlast := Nat.getLast_digit_ne_zero 10 hn
    rw [List.getLast_congr _ _ this] at hlast
    · simp at hlast
    · simp
  · exfalso
    rw [hn, repr_eq_digits m hm] at h
    have hdata : ((Nat.digits 10 m).map Nat.digitChar).reverse = ['0'] :=
      congrArg String.data h
    have hmap : (Nat.digits 10 m).map Nat.digitChar = ['0'] := by
      have := congrArg List.reverse hdata
      simpa using this
    have : Nat.digits 10 m = [0] := by
      have h0 : ([0] : List Nat).map Nat.digitChar = ['0'] := by decide
      exact map_digitChar_inj _ [0] (hbound m) (by decide) (hmap.trans h0.symm)
    have hlast := Nat.getLast_digit_ne_zero 10 hm
    rw [List.getLast_congr _ _ this] at hlast
    · simp at hlast
    · simp
  · rw [repr_eq_digits m hm, repr_eq_digits n hn] at h
    have hdata : ((Nat.digits 10 m).map Nat.digitChar).reverse =
        ((Nat.digits 10 n).map Nat.digitChar).reverse := congrArg String.data h
    have hmap : (Nat.digits 10 m).map Nat.digitChar =
        (Nat.digits 10 n).map Nat.digitChar := by
      have := congrArg List.reverse hdata
      simpa using this
    have := map_digitChar_inj _ _ (hbound m) (hbound n) hmap
    exact Nat.digits_inj_iff.mp this

/-! Characterization of the traces that `mainTail` can produce. -/

/-- The events that can appear after line 77, given which handles exist. -/
def tailAllowed (cfg : Config) : List Event :=
  [Event.createImpalaServer, Event.startRsServices, Event.startExecEnvServices] ++
  (if plannerCreated cfg then
    [Event.startPlanner, Event.setFlag Flag.planner true] else []) ++
  (if workerCreated cfg then
    [Event.startWorker, Event.setFlag Flag.worker true] else []) ++
  [Event.setFlag Flag.serverReady true, Event.joinPlanner, Event.joinWorker,
   Event.deletePlanner, Event.deleteWorker]

/-- The tail of a fully successful run. -/
def successTail (cfg : Config) : List Event :=
  [Event.createImpalaServer, Event.startRsServices, Event.startExecEnvServices] ++
  (if plannerCreated cfg then
    [Event.startPlanner, Event.setFlag Flag.planner true] else []) ++
  (if workerCreated cfg then
    [Event.startWorker, Event.setFlag Flag.worker true] else []) ++
  [Event.setFlag Flag.serverReady true] ++
  (if plannerCreated cfg then [Event.joinPlanner] else []) ++
  (if workerCreated cfg then [Event.joinWorker] else []) ++
  [Event.deletePlanner, Event.deleteWorker]

theorem mainTail_nodup (cfg : Config) (o : Oracle) : (mainTail cfg o).1.Nodup := by
  rcases o with ⟨b1, b2, b3, b4, b5, b6, b7, b8, b9, b10, b11⟩
  by_cases hp : plannerCreated cfg = true <;> by_cases hw : workerCreated cfg = true <;>
    cases b7 <;> cases b8 <;> cases b9 <;> cases b10 <;> cases b11 <;>
    simp_all [mainTail, startPlannerPhase, startWorkerPhase, finishRun]

theorem mainTail_mem (cfg : Config) (o : Oracle) :
    ∀ e ∈ (mainTail cfg o).1, e ∈ tailAllowed cfg := by
  intro e he
  rcases o with ⟨b1, b2, b3, b4, b5, b6, b7, b8, b9, b10, b11⟩
  by_cases hp : plannerCreated cfg = true <;> by_cases hw : workerCreated cfg = true <;>
    cases b7 <;> cases b8 <;> cases b9 <;> cases b10 <;> cases b11 <;>
    simp_all [mainTail, startPlannerPhase, startWorkerPhase, finishRun, tailAllowed] <;>
    tauto

theorem mainTail_code (cfg : Config) (o : Oracle) :
    (mainTail cfg o).2 = 0 ↔
      (o.createServerOk = true ∧ o.rsServicesOk = true ∧
       o.execEnvServicesOk = true ∧
       (plannerCreated cfg = true → o.plannerStartOk = true) ∧
       (workerCreated cfg = true → o.workerStartOk = true)) := by
  rcases o with ⟨b1, b2, b3, b4, b5, b6, b7, b8, b9, b10, b11⟩
  by_cases hp : plannerCreated cfg = true <;> by_cases hw : workerCreated cfg = true <;>
    cases b7 <;> cases b8 <;> cases b9 <;> cases b10 <;> cases b11 <;>
    simp_all [mainTail, startPlannerPhase, startWorkerPhase, finishRun]

theorem mainTail_precedes (cfg : Config) (o : Oracle) :
    Precedes Event.startPlanner (Event.setFlag Flag.planner true) (mainTail cfg o).1 ∧
    Precedes Event.startWorker (Event.setFlag Flag.worker true) (mainTail cfg o).1 ∧
    (plannerCreated cfg = true →
      Precedes (Event.setFlag Flag.planner true) (Event.setFlag Flag.serverReady true)
        (mainTail cfg o).1) ∧
    (workerCreated cfg = true →
      Precedes (Event.setFlag Flag.worker true) (Event.setFlag Flag.serverReady true)
        (mainTail cfg o).1) ∧
    (plannerCreated cfg = true →
      Precedes Event.startPlanner Event.startWorker (mainTail cfg o).1) ∧
    (plannerCreated cfg = true →
      Precedes Event.startPlanner (Event.setFlag Flag.serverReady true) (mainTail cfg o).1) ∧
    (workerCreated cfg = true →
      Precedes Event.startWorker (Event.setFlag Flag.serverReady true) (mainTail cfg o).1) ∧
    (plannerCreated cfg = true →
      Precedes Event.joinPlanner Event.joinWorker (mainTail cfg o).1) ∧
    (plannerCreated cfg = true →
      Precedes Event.joinPlanner Event.deletePlanner (mainTail cfg o).1) ∧
    (workerCreated cfg = true →
      Precedes Event.joinWorker Event.deletePlanner (mainTail cfg o).1) ∧
    Precedes Event.deletePlanner Event.deleteWorker (mainTail cfg o).1 := by
  rcases o with ⟨b1, b2, b3, b4, b5, b6, b7, b8, b9, b10, b11⟩
  by_cases hp : plannerCreated cfg = true <;> by_cases hw : workerCreated cfg = true <;>
    cases b7 <;> cases b8 <;> cases b9 <;> cases b10 <;> cases b11 <;>
    simp_all [mainTail, startPlannerPhase, startWorkerPhase, finishRun] <;> decide

theorem mainTail_implications (cfg : Config) (o : Oracle) :
    (Event.setFlag Flag.planner true ∈ (mainTail cfg o).1 → o.plannerStartOk = true) ∧
    (Event.setFlag Flag.worker true ∈ (mainTail cfg o).1 → o.workerStartOk = true) ∧
    (Event.startPlanner ∈ (mainTail cfg o).1 → o.plannerStartOk = false →
      (mainTail cfg o).2 = 1 ∧ Event.startWorker ∉ (mainTail cfg o).1 ∧
      Event.setFlag Flag.planner true ∉ (mainTail cfg o).1 ∧
      Event.setFlag Flag.serverReady true ∉ (mainTail cfg o).1) ∧
    (Event.startWorker ∈ (mainTail cfg o).1 → o.workerStartOk = false →
      (mainTail cfg o).2 = 1 ∧
      Event.setFlag Flag.worker true ∉ (mainTail cfg o).1 ∧
      Event.setFlag Flag.serverReady true ∉ (mainTail cfg o).1) ∧
    (plannerCreated cfg = false → ∀ b, Event.setFlag Flag.planner b ∉ (mainTail cfg o).1) ∧
    (workerCreated cfg = false → ∀ b, Event.setFlag Flag.worker b ∉ (mainTail cfg o).1) := by
  rcases o with ⟨b1, b2, b3, b4, b5, b6, b7, b8, b9, b10, b11⟩
  by_cases hp : plannerCreated cfg = true <;> by_cases hw : workerCreated cfg = true <;>
    cases b7 <;> cases b8 <;> cases b9 <;> cases b10 <;> cases b11 <;>
    simp_all [mainTail, startPlannerPhase, startWorkerPhase, finishRun]

theorem mainTail_success (cfg : Config) (o : Oracle) (h : successOracle cfg o) :
    mainTail cfg o = (successTail cfg, 0) := by
  obtain ⟨⟨h1, h2, h3, h4, h5, h6⟩, h7, h8, h9, h10, h11⟩ := h
  by_cases hp : plannerCreated cfg = true <;> by_cases hw : workerCreated cfg = true <;>
    simp_all [mainTail, startPlannerPhase, startWorkerPhase, finishRun, successTail]

/-! Characterization of full runs. -/

theorem bootTrace_mem (o : Oracle) :
    ∀ e ∈ bootTrace o,
      e ∈ [Event.initLlvm, Event.initLibhdfs, Event.initHBaseScanner,
           Event.initHBaseFactory, Event.initHBaseWriter, Event.initFeSupport] := by
  intro e he
  unfold bootTrace at he
  split_ifs at he <;> simp_all <;> tauto

theorem mainRun_eq_tail (cfg : Config) (o : Oracle)
    (hz : ¬(cfg.recordservice_worker_port = 0 ∧ cfg.recordservice_planner_port = 0))
    (hb : allBootOk o) :
    mainRun cfg o = (initTrace cfg ++ (mainTail cfg o).1, (mainTail cfg o).2) := by
  obtain ⟨h1, h2, h3, h4, h5, h6⟩ := hb
  simp [mainRun, initTrace, hz, h1, h2, h3, h4, h5, h6]

/-- The events a run can contain before the Identity Generator runs. -/
def initSteps : List Event :=
  [Event.initCommonRuntime, Event.initLlvm, Event.initLibhdfs,
   Event.initHBaseScanner, Event.initHBaseFactory, Event.initHBaseWriter,
   Event.initFeSupport]

theorem initSteps_not_mem {u : List Event} (hsub : ∀ e ∈ u, e ∈ initSteps) :
    (∀ f b, Event.setFlag f b ∉ u) ∧ Event.createImpalaServer ∉ u ∧
    Event.startRsServices ∉ u ∧ Event.startPlanner ∉ u ∧
    Event.startWorker ∉ u ∧ Event.joinPlanner ∉ u ∧ Event.joinWorker ∉ u ∧
    Event.deletePlanner ∉ u ∧ Event.deleteWorker ∉ u ∧
    (∀ s, Event.execEnvConstructed s ∉ u) := by
  refine ⟨fun f b hmem => ?_, fun hmem => ?_, fun hmem => ?_, fun hmem => ?_,
    fun hmem => ?_, fun hmem => ?_, fun hmem => ?_, fun hmem => ?_,
    fun hmem => ?_, fun s hmem => ?_⟩ <;>
    exact absurd (hsub _ hmem) (by simp [initSteps])

theorem mainRun_shape (cfg : Config) (o : Oracle) :
    (∃ u, mainRun cfg o = (u, 1) ∧ ∀ e ∈ u, e ∈ initSteps) ∨
    (¬(cfg.recordservice_worker_port = 0 ∧ cfg.recordservice_planner_port = 0) ∧
     allBootOk o ∧
     mainRun cfg o = (initTrace cfg ++ (mainTail cfg o).1, (mainTail cfg o).2)) := by
  by_cases hz : cfg.recordservice_worker_port = 0 ∧ cfg.recordservice_planner_port = 0
  · left
    exact ⟨[Event.initCommonRuntime], by simp [mainRun, hz], by decide⟩
  by_cases h1 : o.llvmOk = false
  · left
    exact ⟨[Event.initCommonRuntime, Event.initLlvm],
      by simp [mainRun, hz, h1], by decide⟩
  by_cases h2 : o.libhdfsOk = false
  · left
    exact ⟨[Event.initCommonRuntime, Event.initLlvm, Event.initLibhdfs],
      by simp [mainRun, hz, h1, h2], by decide⟩
  by_cases h3 : o.hbaseScannerOk = false
  · left
    exact ⟨[Event.initCommonRuntime, Event.initLlvm, Event.initLibhdfs,
            Event.initHBaseScanner],
      by simp [mainRun, hz, h1, h2, h3], by decide⟩
  by_cases h4 : o.hbaseFactoryOk = false
  · left
    exact ⟨[Event.initCommonRuntime, Event.initLlvm, Event.initLibhdfs,
            Event.initHBaseScanner, Event.initHBaseFactory],
      by simp [mainRun, hz, h1, h2, h3, h4], by decide⟩
  by_cases h5 : o.hbaseWriterOk = false
  · left
    exact ⟨[Event.initCommonRuntime, Event.initLlvm, Event.initLibhdfs,
            Event.initHBaseScanner, Event.initHBaseFactory, Event.initHBaseWriter],
      by simp [mainRun, hz, h1, h2, h3, h4, h5], by decide⟩
  by_cases h6 : o.feSupportOk = false
  · left
    exact ⟨[Event.initCommonRuntime, Event.initLlvm, Event.initLibhdfs,
            Event.initHBaseScanner, Event.initHBaseFactory, Event.initHBaseWriter,
            Event.initFeSupport],
      by simp [mainRun, hz, h1, h2, h3, h4, h5, h6], by decide⟩
  · right
    have hb : allBootOk o := by
      simp only [allBootOk]
      simp only [Bool.not_eq_false] at h1 h2 h3 h4 h5 h6
      exact ⟨h1, h2, h3, h4, h5, h6⟩
    exact ⟨hz, hb, mainRun_eq_tail cfg o hz hb⟩

/-- No readiness flag and no service-construction or start event appears in
the Init-phase part of a trace. -/
theorem initTrace_mem (cfg : Config) :
    ∀ e ∈ initTrace cfg,
      (∀ f b, e ≠ Event.setFlag f b) ∧ e ≠ Event.createImpalaServer ∧
      e ≠ Event.startRsServices ∧ e ≠ Event.startPlanner ∧
      e ≠ Event.startWorker ∧ e ≠ Event.joinPlanner ∧ e ≠ Event.joinWorker ∧
      e ≠ Event.deletePlanner ∧ e ≠ Event.deleteWorker := by
  intro e he
  simp only [initTrace, List.mem_cons, List.mem_singleton, List.not_mem_nil,
    or_false] at he
  rcases he with rfl | rfl | rfl | rfl | rfl | rfl | rfl | rfl | rfl | rfl | rfl <;>
    simp

theorem serviceId_eq_iff (cfg cfg' : Config)
    (hh : cfg.hostname = cfg'.hostname) :
    serviceId cfg = serviceId cfg' ↔ primaryPort cfg = primaryPort cfg' := by
  constructor
  · intro h
    unfold serviceId at h
    rw [hh] at h
    have hdata := congrArg String.data h
    simp only [String.data_append] at hdata
    have := List.append_cancel_left hdata
    exact repr_injective (String.ext this)
  · intro h
    unfold serviceId
    rw [hh, h]

theorem precedes_take_split (a b : Event) (t v : List Event) (n : Nat)
    (ha : a ∈ t.take n) (hb : b ∉ t.take n) : Precedes a b (t ++ v) := by
  have h : t ++ v = t.take n ++ (t.drop n ++ v) := by
    rw [← List.append_assoc, List.take_append_drop]
  rw [h]
  exact precedes_of_split a b _ _ ha hb

theorem tailAllowed_mem_facts (cfg : Config) :
    ∀ e ∈ tailAllowed cfg,
      (∀ s, e ≠ Event.execEnvConstructed s) ∧
      (∀ s, e ≠ Event.identityGenerated s) ∧
      (∀ f b, e = Event.setFlag f b → b = true) := by
  intro e he
  unfold tailAllowed at he
  split_ifs at he <;> fin_cases he <;> simp

/-! The claims. -/

/-- C1: for every configuration with both ports zero, startup fails: the run
exits with status 1 right after `InitCommonRuntime`, before any service is
constructed or started, and no readiness flag is ever set. -/
theorem noRole_config_aborts_before_services (cfg : Config) (o : Oracle)
    (hp : cfg.recordservice_planner_port = 0)
    (hw : cfg.recordservice_worker_port = 0) :
    (mainRun cfg o).2 = 1 ∧
    (mainRun cfg o).1 = [Event.initCommonRuntime] ∧
    (∀ f b, Event.setFlag f b ∉ (mainRun cfg o).1) ∧
    Event.createImpalaServer ∉ (mainRun cfg o).1 ∧
    Event.startRsServices ∉ (mainRun cfg o).1 ∧
    Event.startPlanner ∉ (mainRun cfg o).1 ∧
    Event.startWorker ∉ (mainRun cfg o).1 := by
  simp [mainRun, hp, hw]

theorem noRole_config_aborts_before_services_witness :
    (mainRun ⟨0, 0, "host"⟩ allOk).2 = 1 :=
  (noRole_config_aborts_before_services ⟨0, 0, "host"⟩ allOk rfl rfl).1

/-- C2: if any Subsystem Bootstrapper step fails (in a run that reaches the
bootstrap phase), the trace ends at the first failing step: no subsequent
bootstrap step runs, no RPC service is constructed or started, no readiness
flag is set, and the exit status is 1. -/
theorem bootstrap_failure_fail_fast (cfg : Config) (o : Oracle)
    (hz : ¬(cfg.recordservice_worker_port = 0 ∧ cfg.recordservice_planner_port = 0))
    (hfail : ¬allBootOk o) :
    (mainRun cfg o).1 = Event.initCommonRuntime :: bootTrace o ∧
    (mainRun cfg o).2 = 1 ∧
    (∀ f b, Event.setFlag f b ∉ (mainRun cfg o).1) ∧
    Event.createImpalaServer ∉ (mainRun cfg o).1 ∧
    Event.startRsServices ∉ (mainRun cfg o).1 ∧
    Event.startPlanner ∉ (mainRun cfg o).1 ∧
    Event.startWorker ∉ (mainRun cfg o).1 ∧
    (o.llvmOk = false → bootTrace o = [Event.initLlvm]) ∧
    (o.llvmOk = true → o.libhdfsOk = false →
      bootTrace o = [Event.initLlvm, Event.initLibhdfs]) ∧
    (o.llvmOk = true → o.libhdfsOk = true → o.hbaseScannerOk = false →
      bootTrace o = [Event.initLlvm, Event.initLibhdfs, Event.initHBaseScanner]) ∧
    (o.llvmOk = true → o.libhdfsOk = true → o.hbaseScannerOk = true →
      o.hbaseFactoryOk = false →
      bootTrace o = [Event.initLlvm, Event.initLibhdfs, Event.initHBaseScanner,
        Event.initHBaseFactory]) ∧
    (o.llvmOk = true → o.libhdfsOk = true → o.hbaseScannerOk = true →
      o.hbaseFactoryOk = true → o.hbaseWriterOk = false →
      bootTrace o = [Event.initLlvm, Event.initLibhdfs, Event.initHBaseScanner,
        Event.initHBaseFactory, Event.initHBaseWriter]) ∧
    (o.llvmOk = true → o.libhdfsOk = true → o.hbaseScannerOk = true →
      o.hbaseFactoryOk = true → o.hbaseWriterOk = true → o.feSupportOk = false →
      bootTrace o = [Event.initLlvm, Event.initLibhdfs, Event.initHBaseScanner,
        Event.initHBaseFactory, Event.initHBaseWriter, Event.initFeSupport]) := by
  rcases o with ⟨b1, b2, b3, b4, b5, b6, b7, b8, b9, b10, b11⟩
  cases b1 <;> cases b2 <;> cases b3 <;> cases b4 <;> cases b5 <;> cases b6 <;>
    simp_all [mainRun, bootTrace, allBootOk, if_neg hz]

theorem bootstrap_failure_fail_fast_witness :
    (mainRun ⟨26000, 0, "host"⟩
      ⟨false, true, true, true, true, true, true, true, true, true, true⟩).2 = 1 :=
  (bootstrap_failure_fail_fast ⟨26000, 0, "host"⟩
    ⟨false, true, true, true, true, true, true, true, true, true, true⟩
    (by decide) (by decide)).2.1

/-- C3: with both roles enabled, each role readiness flag is set only after
that role's start call, only when its start succeeded, each role flag is set
before the global ready flag, and on full success all three flags are set. -/
theorem dual_role_readiness_ordering (cfg : Config) (o : Oracle)
    (hp : cfg.recordservice_planner_port ≠ 0)
    (hw : cfg.recordservice_worker_port ≠ 0) :
    Precedes Event.startPlanner (Event.setFlag Flag.planner true)
      (mainRun cfg o).1 ∧
    Precedes Event.startWorker (Event.setFlag Flag.worker true)
      (mainRun cfg o).1 ∧
    (Event.setFlag Flag.planner true ∈ (mainRun cfg o).1 →
      o.plannerStartOk = true) ∧
    (Event.setFlag Flag.worker true ∈ (mainRun cfg o).1 →
      o.workerStartOk = true) ∧
    Precedes (Event.setFlag Flag.planner true)
      (Event.setFlag Flag.serverReady true) (mainRun cfg o).1 ∧
    Precedes (Event.setFlag Flag.worker true)
      (Event.setFlag Flag.serverReady true) (mainRun cfg o).1 ∧
    (successOracle cfg o →
      Event.setFlag Flag.planner true ∈ (mainRun cfg o).1 ∧
      Event.setFlag Flag.worker true ∈ (mainRun cfg o).1 ∧
      Event.setFlag Flag.serverReady true ∈ (mainRun cfg o).1) := by
  have hpc : plannerCreated cfg = true := by simp [plannerCreated, hp]
  have hwc : workerCreated cfg = true := by simp [workerCreated, hw]
  have hz : ¬(cfg.recordservice_worker_port = 0 ∧
      cfg.recordservice_planner_port = 0) := fun h => hp h.2
  rcases mainRun_shape cfg o with ⟨u, hu, hsub⟩ | ⟨_, _, heq⟩
  · have h1 : (mainRun cfg o).1 = u := by rw [hu]
    obtain ⟨hnf, _, _, _, _, _⟩ := initSteps_not_mem hsub
    rw [h1]
    refine ⟨precedes_of_not_mem (hnf _ _), precedes_of_not_mem (hnf _ _),
      fun hmem => absurd hmem (hnf _ _), fun hmem => absurd hmem (hnf _ _),
      precedes_of_not_mem (hnf _ _), precedes_of_not_mem (hnf _ _), ?_⟩
    intro hsucc
    exfalso
    have heq := mainRun_eq_tail cfg o hz hsucc.1
    have hcode0 : (mainTail cfg o).2 = 0 := (mainTail_code cfg o).mpr
      ⟨hsucc.2.1, hsucc.2.2.1, hsucc.2.2.2.1, hsucc.2.2.2.2.1,
       hsucc.2.2.2.2.2⟩
    rw [hu] at heq
    have : (1 : Nat) = (mainTail cfg o).2 := congrArg Prod.snd heq
    omega
  · have ht : (mainRun cfg o).1 = initTrace cfg ++ (mainTail cfg o).1 :=
      congrArg Prod.fst heq
    obtain ⟨l1, l2, l3, l4, _, _, _, _, _, _, _⟩ := mainTail_precedes cfg o
    obtain ⟨i1, i2, _, _, _, _⟩ := mainTail_implications cfg o
    rw [ht]
    refine ⟨precedes_append_left (by simp [initTrace]) l1,
      precedes_append_left (by simp [initTrace]) l2, ?_, ?_,
      precedes_append_left (by simp [initTrace]) (l3 hpc),
      precedes_append_left (by simp [initTrace]) (l4 hwc), ?_⟩
    · intro hmem
      rcases List.mem_append.mp hmem with h | h
      · simp [initTrace] at h
      · exact i1 h
    · intro hmem
      rcases List.mem_append.mp hmem with h | h
      · simp [initTrace] at h
      · exact i2 h
    · intro hsucc
      have hst : (mainTail cfg o).1 = successTail cfg := by
        rw [mainTail_success cfg o hsucc]
      rw [hst]
      refine ⟨?_, ?_, ?_⟩ <;>
        (apply List.mem_append.mpr; right; simp [successTail, hpc, hwc])

theorem dual_role_readiness_ordering_witness :
    Precedes (Event.setFlag Flag.planner true)
      (Event.setFlag Flag.serverReady true)
      (mainRun ⟨26000, 26001, "host"⟩ allOk).1 :=
  (dual_role_readiness_ordering ⟨26000, 26001, "host"⟩ allOk
    (by decide) (by decide)).2.2.2.2.1

/-- C5: with exactly one role enabled, the other role's readiness flag is
never set (with any value), and on a fully successful run the enabled
role's flag and the global ready flag are set, the run exits with status 0,
and the global flag is set only after the enabled role's service start. -/
theorem single_role_readiness_isolation (cfg : Config) (o : Oracle) :
    (cfg.recordservice_planner_port ≠ 0 → cfg.recordservice_worker_port = 0 →
      (∀ b, Event.setFlag Flag.worker b ∉ (mainRun cfg o).1) ∧
      (successOracle cfg o →
        Event.setFlag Flag.planner true ∈ (mainRun cfg o).1 ∧
        Event.setFlag Flag.serverReady true ∈ (mainRun cfg o).1 ∧
        (mainRun cfg o).2 = 0 ∧
        Precedes Event.startPlanner (Event.setFlag Flag.serverReady true)
          (mainRun cfg o).1)) ∧
    (cfg.recordservice_worker_port ≠ 0 → cfg.recordservice_planner_port = 0 →
      (∀ b, Event.setFlag Flag.planner b ∉ (mainRun cfg o).1) ∧
      (successOracle cfg o →
        Event.setFlag Flag.worker true ∈ (mainRun cfg o).1 ∧
        Event.setFlag Flag.serverReady true ∈ (mainRun cfg o).1 ∧
        (mainRun cfg o).2 = 0 ∧
        Precedes Event.startWorker (Event.setFlag Flag.serverReady true)
          (mainRun cfg o).1)) := by
  constructor
  · intro hp hw0
    have hpc : plannerCreated cfg = true := by simp [plannerCreated, hp]
    have hwc : workerCreated cfg = false := by simp [workerCreated, hw0]
    have hz : ¬(cfg.recordservice_worker_port = 0 ∧
        cfg.recordservice_planner_port = 0) := fun h => hp h.2
    rcases mainRun_shape cfg o with ⟨u, hu, hsub⟩ | ⟨_, _, heq⟩
    · have h1 : (mainRun cfg o).1 = u := by rw [hu]
      obtain ⟨hnf, _⟩ := initSteps_not_mem hsub
      rw [h1]
      refine ⟨fun b => hnf _ b, ?_⟩
      intro hsucc
      exfalso
      have heq := mainRun_eq_tail cfg o hz hsucc.1
      have hcode0 : (mainTail cfg o).2 = 0 := (mainTail_code cfg o).mpr
        ⟨hsucc.2.1, hsucc.2.2.1, hsucc.2.2.2.1, hsucc.2.2.2.2.1,
         hsucc.2.2.2.2.2⟩
      rw [hu] at heq
      have : (1 : Nat) = (mainTail cfg o).2 := congrArg Prod.snd heq
      omega
    · have ht : (mainRun cfg o).1 = initTrace cfg ++ (mainTail cfg o).1 :=
        congrArg Prod.fst heq
      have hc : (mainRun cfg o).2 = (mainTail cfg o).2 := by rw [heq]
      obtain ⟨_, _, _, _, _, l6, _, _, _, _, _⟩ := mainTail_precedes cfg o
      obtain ⟨_, _, _, _, _, i6⟩ := mainTail_implications cfg o
      rw [ht]
      constructor
      · intro b hmem
        rcases List.mem_append.mp hmem with h | h
        · simp [initTrace] at h
        · exact i6 hwc b h
      · intro hsucc
        have hst : (mainTail cfg o).1 = successTail cfg := by
          rw [mainTail_success cfg o hsucc]
        have hcode0 : (mainTail cfg o).2 = 0 := by
          rw [mainTail_success cfg o hsucc]
        refine ⟨?_, ?_, by rw [hc, hcode0], ?_⟩
        · rw [hst]
          apply List.mem_append.mpr
          right
          simp [successTail, hpc, hwc]
        · rw [hst]
          apply List.mem_append.mpr
          right
          simp [successTail, hpc, hwc]
        · exact precedes_append_left (by simp [initTrace]) (l6 hpc)
  · intro hw hp0
    have hpc : plannerCreated cfg = false := by simp [plannerCreated, hp0]
    have hwc : workerCreated cfg = true := by simp [workerCreated, hw]
    have hz : ¬(cfg.recordservice_worker_port = 0 ∧
        cfg.recordservice_planner_port = 0) := fun h => hw h.1
    rcases mainRun_shape cfg o with ⟨u, hu, hsub⟩ | ⟨_, _, heq⟩
    · have h1 : (mainRun cfg o).1 = u := by rw [hu]
      obtain ⟨hnf, _⟩ := initSteps_not_mem hsub
      rw [h1]
      refine ⟨fun b => hnf _ b, ?_⟩
      intro hsucc
      exfalso
      have heq := mainRun_eq_tail cfg o hz hsucc.1
      have hcode0 : (mainTail cfg o).2 = 0 := (mainTail_code cfg o).mpr
        ⟨hsucc.2.1, hsucc.2.2.1, hsucc.2.2.2.1, hsucc.2.2.2.2.1,
         hsucc.2.2.2.2.2⟩
      rw [hu] at heq
      have : (1 : Nat) = (mainTail cfg o).2 := congrArg Prod.snd heq
      omega
    · have ht : (mainRun cfg o).1 = initTrace cfg ++ (mainTail cfg o).1 :=
        congrArg Prod.fst heq
      have hc : (mainRun cfg o).2 = (mainTail cfg o).2 := by rw [heq]
      obtain ⟨_, _, _, _, _, _, l7, _, _, _, _⟩ := mainTail_precedes cfg o
      obtain ⟨_, _, _, _, i5, _⟩ := mainTail_implications cfg o
      rw [ht]
      constructor
      · intro b hmem
        rcases List.mem_append.mp hmem with h | h
        · simp [initTrace] at h
        · exact i5 hpc b h
      · intro hsucc
        have hst : (mainTail cfg o).1 = successTail cfg := by
          rw [mainTail_success cfg o hsucc]
        have hcode0 : (mainTail cfg o).2 = 0 := by
          rw [mainTail_success cfg o hsucc]
        refine ⟨?_, ?_, by rw [hc, hcode0], ?_⟩
        · rw [hst]
          apply List.mem_append.mpr
          right
          simp [successTail, hpc, hwc]
        · rw [hst]
          apply List.mem_append.mpr
          right
          simp [successTail, hpc, hwc]
        · exact precedes_append_left (by simp [initTrace]) (l7 hwc)

theorem single_role_readiness_isolation_witness :
    ∀ b, Event.setFlag Flag.worker b ∉ (mainRun ⟨26000, 0, "host"⟩ allOk).1 :=
  ((single_role_readiness_isolation ⟨26000, 0, "host"⟩ allOk).1
    (by decide) rfl).1

/-- C6: created handles are started planner before worker, and any
individual start failure is fatal: the run exits with status 1, the
remaining handle is never started, and neither the failed role's flag nor
the global flag is set. -/
theorem start_order_and_start_failure_fatal (cfg : Config) (o : Oracle) :
    (plannerCreated cfg = true →
      Precedes Event.startPlanner Event.startWorker (mainRun cfg o).1) ∧
    (Event.startPlanner ∈ (mainRun cfg o).1 → o.plannerStartOk = false →
      (mainRun cfg o).2 = 1 ∧ Event.startWorker ∉ (mainRun cfg o).1 ∧
      Event.setFlag Flag.planner true ∉ (mainRun cfg o).1 ∧
      Event.setFlag Flag.serverReady true ∉ (mainRun cfg o).1) ∧
    (Event.startWorker ∈ (mainRun cfg o).1 → o.workerStartOk = false →
      (mainRun cfg o).2 = 1 ∧
      Event.setFlag Flag.worker true ∉ (mainRun cfg o).1 ∧
      Event.setFlag Flag.serverReady true ∉ (mainRun cfg o).1) := by
  rcases mainRun_shape cfg o with ⟨u, hu, hsub⟩ | ⟨_, _, heq⟩
  · have h1 : (mainRun cfg o).1 = u := by rw [hu]
    obtain ⟨_, _, _, hnsp, hnsw, _⟩ := initSteps_not_mem hsub
    rw [h1]
    exact ⟨fun _ => precedes_of_not_mem hnsw,
      fun hmem => absurd hmem hnsp, fun hmem => absurd hmem hnsw⟩
  · have ht : (mainRun cfg o).1 = initTrace cfg ++ (mainTail cfg o).1 :=
      congrArg Prod.fst heq
    have hc : (mainRun cfg o).2 = (mainTail cfg o).2 := by rw [heq]
    obtain ⟨_, _, _, _, l5, _, _, _, _, _, _⟩ := mainTail_precedes cfg o
    obtain ⟨_, _, i3, i4, _, _⟩ := mainTail_implications cfg o
    rw [ht, hc]
    refine ⟨fun hpc => precedes_append_left (by simp [initTrace]) (l5 hpc),
      ?_, ?_⟩
    · intro hmem hfail
      have hmem' : Event.startPlanner ∈ (mainTail cfg o).1 := by
        rcases List.mem_append.mp hmem with h | h
        · simp [initTrace] at h
        · exact h
      obtain ⟨hcode, hnw, hnfp, hnr⟩ := i3 hmem' hfail
      refine ⟨hcode, ?_, ?_, ?_⟩ <;>
        (intro hmem2
         rcases List.mem_append.mp hmem2 with h | h
         · simp [initTrace] at h
         · first
           | exact hnw h
           | exact hnfp h
           | exact hnr h)
    · intro hmem hfail
      have hmem' : Event.startWorker ∈ (mainTail cfg o).1 := by
        rcases List.mem_append.mp hmem with h | h
        · simp [initTrace] at h
        · exact h
      obtain ⟨hcode, hnfw, hnr⟩ := i4 hmem' hfail
      refine ⟨hcode, ?_, ?_⟩ <;>
        (intro hmem2
         rcases List.mem_append.mp hmem2 with h | h
         · simp [initTrace] at h
         · first
           | exact hnfw h
           | exact hnr h)

theorem start_order_and_start_failure_fatal_witness :
    (mainRun ⟨26000, 26001, "host"⟩
      ⟨true, true, true, true, true, true, true, true, true, false, true⟩).2 = 1 :=
  ((start_order_and_start_failure_fatal ⟨26000, 26001, "host"⟩
    ⟨true, true, true, true, true, true, true, true, true, false, true⟩).2.1
    (by decide) rfl).1

/-- C4: the identity generator is a deterministic pure function: it renders
`"recordserviced@<host>:<port>"` with the primary port (planner port if
nonzero, else worker port); equal inputs give equal identities and changing
the primary port changes the identity. -/
theorem serviceId_deterministic_format_port_sensitive (cfg cfg' : Config) :
    serviceId cfg =
      "recordserviced@" ++ cfg.hostname ++ ":" ++ Nat.repr (primaryPort cfg) ∧
    (cfg.hostname = cfg'.hostname → primaryPort cfg = primaryPort cfg' →
      serviceId cfg = serviceId cfg') ∧
    (cfg.hostname = cfg'.hostname → primaryPort cfg ≠ primaryPort cfg' →
      serviceId cfg ≠ serviceId cfg') := by
  refine ⟨rfl, ?_, ?_⟩
  · intro hh hpq
    exact (serviceId_eq_iff cfg cfg' hh).mpr hpq
  · intro hh hpq h
    exact hpq ((serviceId_eq_iff cfg cfg' hh).mp h)

theorem serviceId_deterministic_format_port_sensitive_witness :
    serviceId ⟨26000, 0, "host"⟩ ≠ serviceId ⟨26001, 0, "host"⟩ :=
  (serviceId_deterministic_format_port_sensitive
    ⟨26000, 0, "host"⟩ ⟨26001, 0, "host"⟩).2.2 rfl (by decide)

/-- C10: with both roles enabled, if the planner start succeeds but the
worker start fails, the process exits with status 1 in a state where the
planner readiness flag was already published while the worker and global
flags are never set. -/
theorem incomplete_readiness_on_worker_start_failure (cfg : Config) (o : Oracle)
    (hp : cfg.recordservice_planner_port ≠ 0)
    (hw : cfg.recordservice_worker_port ≠ 0)
    (hb : allBootOk o) (h7 : o.createServerOk = true) (h8 : o.rsServicesOk = true)
    (h9 : o.execEnvServicesOk = true) (h10 : o.plannerStartOk = true)
    (h11 : o.workerStartOk = false) :
    (mainRun cfg o).1 =
      initTrace cfg ++
        [Event.createImpalaServer, Event.startRsServices,
         Event.startExecEnvServices, Event.startPlanner,
         Event.setFlag Flag.planner true, Event.startWorker] ∧
    (mainRun cfg o).2 = 1 ∧
    Event.setFlag Flag.planner true ∈ (mainRun cfg o).1 ∧
    Event.setFlag Flag.worker true ∉ (mainRun cfg o).1 ∧
    Event.setFlag Flag.serverReady true ∉ (mainRun cfg o).1 ∧
    Precedes (Event.setFlag Flag.planner true) Event.startWorker
      (mainRun cfg o).1 := by
  have hz : ¬(cfg.recordservice_worker_port = 0 ∧
      cfg.recordservice_planner_port = 0) := by
    intro h
    exact hw h.1
  have htail : mainTail cfg o =
      ([Event.createImpalaServer, Event.startRsServices,
        Event.startExecEnvServices, Event.startPlanner,
        Event.setFlag Flag.planner true, Event.startWorker], 1) := by
    simp [mainTail, startPlannerPhase, startWorkerPhase, plannerCreated,
      workerCreated, hp, hw, h7, h8, h9, h10, h11]
  rw [mainRun_eq_tail cfg o hz hb, htail]
  refine ⟨rfl, rfl, ?_, ?_, ?_, ?_⟩
  · simp [initTrace]
  · simp [initTrace]
  · simp [initTrace]
  · exact precedes_append_left (by simp [initTrace]) (by decide)

/-- C7: in any run that passes the precondition check and whose bootstrap
steps all succeed, `InitCommonRuntime`, the six bootstrap steps and the
identity generation happen in strict source order; the `ExecEnv` is
constructed exactly once, with the already-derived service id, and before
`StartRecordServiceServices` and before any role service start. -/
theorem init_sequence_and_unique_env_construction (cfg : Config) (o : Oracle)
    (hz : ¬(cfg.recordservice_worker_port = 0 ∧
      cfg.recordservice_planner_port = 0))
    (hb : allBootOk o) :
    Precedes Event.initCommonRuntime Event.initLlvm (mainRun cfg o).1 ∧
    Precedes Event.initLlvm Event.initLibhdfs (mainRun cfg o).1 ∧
    Precedes Event.initLibhdfs Event.initHBaseScanner (mainRun cfg o).1 ∧
    Precedes Event.initHBaseScanner Event.initHBaseFactory (mainRun cfg o).1 ∧
    Precedes Event.initHBaseFactory Event.initHBaseWriter (mainRun cfg o).1 ∧
    Precedes Event.initHBaseWriter Event.initFeSupport (mainRun cfg o).1 ∧
    Precedes Event.initFeSupport (Event.identityGenerated (serviceId cfg))
      (mainRun cfg o).1 ∧
    Precedes (Event.identityGenerated (serviceId cfg))
      (Event.execEnvConstructed (serviceId cfg)) (mainRun cfg o).1 ∧
    List.count (Event.execEnvConstructed (serviceId cfg)) (mainRun cfg o).1
      = 1 ∧
    (∀ s, Event.execEnvConstructed s ∈ (mainRun cfg o).1 →
      s = serviceId cfg) ∧
    Precedes (Event.execEnvConstructed (serviceId cfg))
      Event.startRsServices (mainRun cfg o).1 ∧
    Precedes (Event.execEnvConstructed (serviceId cfg))
      Event.startPlanner (mainRun cfg o).1 ∧
    Precedes (Event.execEnvConstructed (serviceId cfg))
      Event.startWorker (mainRun cfg o).1 := by
  have heq := mainRun_eq_tail cfg o hz hb
  have ht : (mainRun cfg o).1 = initTrace cfg ++ (mainTail cfg o).1 := by
    rw [heq]
  rw [ht]
  have hnotail : ∀ s, Event.execEnvConstructed s ∉ (mainTail cfg o).1 :=
    fun s hmem =>
      absurd rfl ((tailAllowed_mem_facts cfg _ (mainTail_mem cfg o _ hmem)).1 s)
  refine ⟨precedes_take_split _ _ _ _ 1 (by simp [initTrace]) (by simp [initTrace]),
    precedes_take_split _ _ _ _ 2 (by simp [initTrace]) (by simp [initTrace]),
    precedes_take_split _ _ _ _ 3 (by simp [initTrace]) (by simp [initTrace]),
    precedes_take_split _ _ _ _ 4 (by simp [initTrace]) (by simp [initTrace]),
    precedes_take_split _ _ _ _ 5 (by simp [initTrace]) (by simp [initTrace]),
    precedes_take_split _ _ _ _ 6 (by simp [initTrace]) (by simp [initTrace]),
    precedes_take_split _ _ _ _ 7 (by simp [initTrace]) (by simp [initTrace]),
    precedes_take_split _ _ _ _ 8 (by simp [initTrace]) (by simp [initTrace]),
    ?_, ?_,
    precedes_take_split _ _ _ _ 11 (by simp [initTrace]) (by simp [initTrace]),
    precedes_take_split _ _ _ _ 11 (by simp [initTrace]) (by simp [initTrace]),
    precedes_take_split _ _ _ _ 11 (by simp [initTrace]) (by simp [initTrace])⟩
  · rw [List.count_append,
      List.count_eq_zero.mpr (hnotail (serviceId cfg))]
    simp [initTrace, List.count_cons, beq_iff_eq]
  · intro s hmem
    rcases List.mem_append.mp hmem with h | h
    · simp [initTrace] at h
      exact h
    · exact absurd h (hnotail s)

theorem init_sequence_and_unique_env_construction_witness :
    List.count
      (Event.execEnvConstructed (serviceId ⟨26000, 0, "host"⟩))
      (mainRun ⟨26000, 0, "host"⟩ allOk).1 = 1 :=
  (init_sequence_and_unique_env_construction ⟨26000, 0, "host"⟩ allOk
    (by decide) (by decide)).2.2.2.2.2.2.2.2.1

/-- C8: the run exits with status 0 exactly when the precondition holds and
every collaborator call of the run succeeds (any fatal startup error yields
a non-zero status); on such a clean shutdown every started handle is
joined — planner join before worker join — and both handles are released
only after all joins. -/
theorem shutdown_join_release_exit_codes (cfg : Config) (o : Oracle) :
    ((mainRun cfg o).2 = 0 ↔
      (¬(cfg.recordservice_worker_port = 0 ∧
         cfg.recordservice_planner_port = 0) ∧ successOracle cfg o)) ∧
    ((mainRun cfg o).2 = 0 →
      (plannerCreated cfg = true → Event.joinPlanner ∈ (mainRun cfg o).1) ∧
      (workerCreated cfg = true → Event.joinWorker ∈ (mainRun cfg o).1) ∧
      (plannerCreated cfg = true →
        Precedes Event.joinPlanner Event.joinWorker (mainRun cfg o).1) ∧
      (plannerCreated cfg = true →
        Precedes Event.joinPlanner Event.deletePlanner (mainRun cfg o).1) ∧
      (workerCreated cfg = true →
        Precedes Event.joinWorker Event.deletePlanner (mainRun cfg o).1) ∧
      Precedes Event.deletePlanner Event.deleteWorker (mainRun cfg o).1) := by
  rcases mainRun_shape cfg o with ⟨u, hu, hsub⟩ | ⟨hz, hb, heq⟩
  · have hcode : (mainRun cfg o).2 = 1 := by rw [hu]
    rw [hcode]
    constructor
    · constructor
      · intro h
        exact absurd h (by norm_num)
      · rintro ⟨hz, hsucc⟩
        exfalso
        have heq := mainRun_eq_tail cfg o hz hsucc.1
        have hcode0 : (mainTail cfg o).2 = 0 := (mainTail_code cfg o).mpr
          ⟨hsucc.2.1, hsucc.2.2.1, hsucc.2.2.2.1, hsucc.2.2.2.2.1,
           hsucc.2.2.2.2.2⟩
        rw [hu] at heq
        have h1 : (1 : Nat) = (mainTail cfg o).2 := congrArg Prod.snd heq
        omega
    · intro h
      exact absurd h (by norm_num)
  · have ht : (mainRun cfg o).1 = initTrace cfg ++ (mainTail cfg o).1 := by
      rw [heq]
    have hc : (mainRun cfg o).2 = (mainTail cfg o).2 := by rw [heq]
    constructor
    · rw [hc]
      constructor
      · intro h0
        obtain ⟨x1, x2, x3, x4, x5⟩ := (mainTail_code cfg o).mp h0
        exact ⟨hz, hb, x1, x2, x3, x4, x5⟩
      · rintro ⟨-, -, x1, x2, x3, x4, x5⟩
        exact (mainTail_code cfg o).mpr ⟨x1, x2, x3, x4, x5⟩
    · intro h0
      have hsucc : successOracle cfg o := by
        rw [hc] at h0
        obtain ⟨x1, x2, x3, x4, x5⟩ := (mainTail_code cfg o).mp h0
        exact ⟨hb, x1, x2, x3, x4, x5⟩
      have hst : (mainTail cfg o).1 = successTail cfg := by
        rw [mainTail_success cfg o hsucc]
      obtain ⟨_, _, _, _, _, _, _, l8, l9, l10, l11⟩ := mainTail_precedes cfg o
      rw [ht]
      refine ⟨?_, ?_,
        fun hpc => precedes_append_left (by simp [initTrace]) (l8 hpc),
        fun hpc => precedes_append_left (by simp [initTrace]) (l9 hpc),
        fun hwc => precedes_append_left (by simp [initTrace]) (l10 hwc),
        precedes_append_left (by simp [initTrace]) l11⟩
      · intro hpc
        apply List.mem_append.mpr
        right
        rw [hst]
        simp [successTail, hpc]
      · intro hwc
        apply List.mem_append.mpr
        right
        rw [hst]
        simp [successTail, hwc]

theorem shutdown_join_release_exit_codes_witness :
    (mainRun ⟨26000, 26001, "host"⟩ allOk).2 = 0 :=
  (shutdown_join_release_exit_codes ⟨26000, 26001, "host"⟩ allOk).1.mpr
    ⟨by decide, by decide⟩

/-- C9: every readiness gauge write in any run writes `true` (no flag is
ever unset), and each of the three flags is written at most once. -/
theorem readiness_flags_monotone_set_once (cfg : Config) (o : Oracle)
    (f : Flag) :
    (∀ b, Event.setFlag f b ∈ (mainRun cfg o).1 → b = true) ∧
    List.count (Event.setFlag f true) (mainRun cfg o).1 ≤ 1 := by
  rcases mainRun_shape cfg o with ⟨u, hu, hsub⟩ | ⟨_, _, heq⟩
  · have h1 : (mainRun cfg o).1 = u := by rw [hu]
    obtain ⟨hnf, _⟩ := initSteps_not_mem hsub
    rw [h1]
    refine ⟨fun b hmem => absurd hmem (hnf f b), ?_⟩
    rw [List.count_eq_zero.mpr (hnf f true)]
    omega
  · have ht : (mainRun cfg o).1 = initTrace cfg ++ (mainTail cfg o).1 := by
      rw [heq]
    rw [ht]
    constructor
    · intro b hmem
      rcases List.mem_append.mp hmem with h | h
      · simp [initTrace] at h
      · exact (tailAllowed_mem_facts cfg _ (mainTail_mem cfg o _ h)).2.2 f b rfl
    · rw [List.count_append]
      have h0 : List.count (Event.setFlag f true) (initTrace cfg) = 0 :=
        List.count_eq_zero.mpr (by simp [initTrace])
      have h1 : List.count (Event.setFlag f true) (mainTail cfg o).1 ≤ 1 :=
        List.nodup_iff_count_le_one.mp (mainTail_nodup cfg o) _
      omega

theorem readiness_flags_monotone_set_once_witness :
    List.count (Event.setFlag Flag.planner true)
      (mainRun ⟨26000, 26001, "host"⟩ allOk).1 ≤ 1 :=
  (readiness_flags_monotone_set_once ⟨26000, 26001, "host"⟩ allOk
    Flag.planner).2

theorem incomplete_readiness_on_worker_start_failure_witness :
    (mainRun ⟨26000, 26001, "host"⟩
      ⟨true, true, true, true, true, true, true, true, true, true, false⟩).2 = 1 :=
  (incomplete_readiness_on_worker_start_failure ⟨26000, 26001, "host"⟩
    ⟨true, true, true, true, true, true, true, true, true, true, false⟩
    (by decide) (by decide) (by decide) rfl rfl rfl rfl rfl).2.1

end RecordServiced
